import Mathlib

/-!
Shallow embedding of the mood renderer's cube-texture manager
(src/client/src/model/cube_texture.rs) and frame/input controller
(src/src/application.rs).

Machine integers (Rust u32) are modelled as Nat with an explicit reduction
modulo 2^32 wherever the source performs u32 arithmetic whose result could
overflow (release-mode wrapping semantics).  Fallible operations are
modelled with Option / Except; Rust panics (assert_eq!, expect, index out
of bounds) appear as distinct error constructors.
-/

namespace Mood

/-- Modulus of the u32 machine-integer type used throughout the Rust source. -/
def u32Mod : Nat := 4294967296

/-- Texture formats appearing in cube_texture.rs. -/
inductive TexFormat
  | Depth32Float
  | Rgba8Unorm
deriving DecidableEq, Repr

/-- Texture dimensionality (the source only ever uses D2). -/
inductive TexDimension
  | D2
deriving DecidableEq, Repr

/-- Texture-view dimensionality used by the source. -/
inductive TexViewDimension
  | D2
  | Cube
  | CubeArray
deriving DecidableEq, Repr

/-- Texture usage flags used by the source. -/
inductive TexUsage
  | textureBinding
  | renderAttachment
  | copyDst
deriving DecidableEq, Repr

/-- Sampler address mode; the source always uses ClampToEdge. -/
inductive AddressMode
  | ClampToEdge
deriving DecidableEq, Repr

/-- Sampler filter modes used by the source. -/
inductive FilterMode
  | Linear
  | Nearest
deriving DecidableEq, Repr

/-- Depth-compare function; the source uses LessEqual for shadow sampling. -/
inductive CompareFunction
  | LessEqual
deriving DecidableEq, Repr

/-- The wgpu::TextureDescriptor fields that new_shadow_map / from_files fill in. -/
structure TextureDescriptor where
  width : Nat
  height : Nat
  depth_or_array_layers : Nat
  mip_level_count : Nat
  sample_count : Nat
  dimension : TexDimension
  format : TexFormat
  usage : List TexUsage
deriving DecidableEq, Repr

/-- The wgpu::TextureViewDescriptor fields the source sets (None = left default). -/
structure TextureViewDescriptor where
  dimension : TexViewDimension
  base_array_layer : Nat
  array_layer_count : Option Nat
  mip_level_count : Option Nat
  format : Option TexFormat
deriving DecidableEq, Repr

/-- The wgpu::SamplerDescriptor fields the source sets. -/
structure SamplerDescriptor where
  address_mode_u : AddressMode
  address_mode_v : AddressMode
  address_mode_w : AddressMode
  compare : Option CompareFunction
  mag_filter : FilterMode
  min_filter : FilterMode
  mipmap_filter : FilterMode
deriving DecidableEq, Repr

/-- Result of CubeTexture::new_shadow_map: the texture, view and sampler
descriptors it hands to the device (cube_texture.rs lines 62-103). -/
structure ShadowMapParts where
  texture : TextureDescriptor
  view : TextureViewDescriptor
  sampler : SamplerDescriptor
deriving DecidableEq, Repr

/-- Embedding of CubeTexture::new_shadow_map (cube_texture.rs lines 62-103):
the descriptors it passes to device.create_texture / create_view /
create_sampler, with the u32 product 6 * num_lights reduced mod 2^32. -/
def new_shadow_map (resolution num_lights : Nat) : ShadowMapParts :=
  { texture :=
      { width := resolution
        height := resolution
        depth_or_array_layers := 6 * num_lights % u32Mod
        mip_level_count := 1
        sample_count := 1
        dimension := .D2
        format := .Depth32Float
        usage := [.textureBinding, .renderAttachment] }
    view :=
      { dimension := .CubeArray
        base_array_layer := 0
        array_layer_count := some (6 * num_lights % u32Mod)
        mip_level_count := none
        format := none }
    sampler :=
      { address_mode_u := .ClampToEdge
        address_mode_v := .ClampToEdge
        address_mode_w := .ClampToEdge
        compare := some .LessEqual
        mag_filter := .Linear
        min_filter := .Linear
        mipmap_filter := .Nearest } }

/-- Embedding of CubeTexture::create_view_from_face (cube_texture.rs lines
105-120): the view descriptor, whose base_array_layer is the u32 expression
6 * light_index + face_index reduced mod 2^32. -/
def create_view_from_face (light_index face_index : Nat) : TextureViewDescriptor :=
  { dimension := .D2
    base_array_layer := (6 * light_index + face_index) % u32Mod
    array_layer_count := some 1
    mip_level_count := some 1
    format := some .Depth32Float }

/-- Errors raised by the graphics device at texture creation. -/
inductive DeviceError
  | zeroSize
deriving DecidableEq, Repr

/-- Modelled from the spec: the graphics device (a collaborator whose code is
not under src/) rejects creating a texture of zero width or height as a
construction error, while a zero array-layer count is legal (the spec treats
numLights == 0 atlases as constructible). -/
def create_texture (d : TextureDescriptor) : Except DeviceError TextureDescriptor :=
  if d.width = 0 ∨ d.height = 0 then .error .zeroSize else .ok d

/-- CubeTexture::new_shadow_map run against the modelled device: the
constructor succeeds exactly when device.create_texture accepts the
descriptor it builds. -/
def new_shadow_map_on_device (resolution num_lights : Nat) :
    Except DeviceError ShadowMapParts :=
  match create_texture (new_shadow_map resolution num_lights).texture with
  | .error e => .error e
  | .ok _ => .ok (new_shadow_map resolution num_lights)

/-- Decoded RGBA8 image: dimensions (u32 values in the source) and raw pixel
bytes. -/
structure RgbaImage where
  width : Nat
  height : Nat
  data : List Nat
deriving DecidableEq, Repr

/-- Option-valued map over a list, failing when any element fails (the shape
of joining the per-face image::open(..).expect results: any decode panic
aborts the whole load). -/
def mapOption (f : α → Option β) : List α → Option (List β)
  | [] => some []
  | a :: t =>
    match f a, mapOption f t with
    | some b, some bs => some (b :: bs)
    | _, _ => none

/-- Fork-join slot store: the decode task for index i writes its result into
slot i when it completes; a completion order is the list of indices in the
order the tasks finish, and slots start empty. -/
def scheduleStore (g : Nat → α) (order : List Nat) : Nat → Option α :=
  order.foldl (fun acc i => Function.update acc i (some (g i))) (fun _ => none)

/-- Read the slots for the given indices after the join; none if some slot was
never filled. -/
def collectStore (store : Nat → Option α) : List Nat → Option (List α)
  | [] => some []
  | i :: t =>
    match store i, collectStore store t with
    | some a, some rest => some (a :: rest)
    | _, _ => none

/-- Embedding of the rayon par_iter().map(..).collect() in from_files
(cube_texture.rs lines 129-135), explicit about scheduling: decode tasks
complete in the given order, results are recombined by original index, and a
decode failure (the expect panic inside a task) is none. -/
def par_decode (decode : String → Option RgbaImage) (files : List String)
    (order : List Nat) : Option (List RgbaImage) :=
  match collectStore (scheduleStore (fun i => decode (files.getD i "")) order)
      (List.range files.length) with
  | none => none
  | some results => mapOption id results

/-- Panics and failures of CubeTexture::from_files, each fatal. -/
inductive CubeError
  | wrongCount
  | decodeFailure
  | indexPanic
  | dimMismatch
deriving DecidableEq, Repr

/-- One queue.write_texture call issued by from_files: destination layer z,
source bytes, and the buffer-layout row pitch fields (u32 arithmetic). -/
structure TexWrite where
  z : Nat
  data : List Nat
  bytes_per_row : Nat
  rows_per_image : Nat
deriving DecidableEq, Repr

/-- Result of CubeTexture::from_files: the texture descriptor, the uploads
issued to the queue in order, and the view/sampler descriptors. -/
structure EnvCubeTexture where
  texture : TextureDescriptor
  writes : List TexWrite
  view : TextureViewDescriptor
  sampler : SamplerDescriptor
deriving DecidableEq, Repr

/-- The upload loop over rgbas.iter().enumerate() in from_files (lines
165-185): image i goes to destination origin z = i, with bytes_per_row =
4 * w and rows_per_image = h (both u32). -/
def upload_writes (w h : Nat) : Nat → List RgbaImage → List TexWrite
  | _, [] => []
  | i, r :: rest =>
    { z := i, data := r.data, bytes_per_row := 4 * w % u32Mod,
      rows_per_image := h } :: upload_writes w h (i + 1) rest

/-- Embedding of CubeTexture::from_files (cube_texture.rs lines 122-208),
parameterized by the image decoder and by the completion order of the six
concurrent decode tasks.  The assert on files.len(), the expect on decode,
the rgbas[0] index and the dimension asserts are the error branches, in
source order. -/
def from_files (decode : String → Option RgbaImage) (files : List String)
    (order : List Nat) : Except CubeError EnvCubeTexture :=
  if files.length = 6 then
    match par_decode decode files order with
    | none => .error .decodeFailure
    | some rgbas =>
      match rgbas with
      | [] => .error .indexPanic
      | r0 :: rest =>
        if rest.all fun r => r.width == r0.width && r.height == r0.height then
          .ok
            { texture :=
                { width := r0.width
                  height := r0.height
                  depth_or_array_layers := 6
                  mip_level_count := 1
                  sample_count := 1
                  dimension := .D2
                  format := .Rgba8Unorm
                  usage := [.textureBinding, .copyDst] }
              writes := upload_writes r0.width r0.height 0 (r0 :: rest)
              view :=
                { dimension := .Cube
                  base_array_layer := 0
                  array_layer_count := some 6
                  mip_level_count := none
                  format := none }
              sampler :=
                { address_mode_u := .ClampToEdge
                  address_mode_v := .ClampToEdge
                  address_mode_w := .ClampToEdge
                  compare := none
                  mag_filter := .Linear
                  min_filter := .Nearest
                  mipmap_filter := .Nearest } }
        else .error .dimMismatch
  else .error .wrongCount

/-- Six file names of distinct lengths, used for concrete checks. -/
def sixFiles : List String := ["a", "bb", "ccc", "dddd", "eeeee", "ffffff"]

/-- Five file names, used for the wrong-count check. -/
def fiveFiles : List String := ["a", "bb", "ccc", "dddd", "eeeee"]

/-- A decoder whose images are all 2^30 pixels wide (a width a u32
dimensions() call can report), exhibiting the u32 row-pitch wrap. -/
def bigDecode : String → Option RgbaImage := fun _ => some ⟨1073741824, 1, []⟩

/-- A decoder returning matching 2 x 1 images that carry the file-name
length as pixel payload, so faces are distinguishable. -/
def smallDecode : String → Option RgbaImage := fun s => some ⟨2, 1, [s.length]⟩

/-- A decoder whose first image is 64 x 64 and all others 32 x 32. -/
def mixDecode : String → Option RgbaImage :=
  fun s => if s = "a" then some ⟨64, 64, []⟩ else some ⟨32, 32, []⟩

/-- Surface errors the renderer's render() can return: the recoverable Lost
and Outdated cases and every other error, carried with its display text. -/
inductive SurfaceError
  | Lost
  | Outdated
  | Other (msg : String)
deriving DecidableEq, Repr

/-- Physical-key classification of a winit keyboard event: a known key code
or an unidentified key (which the source's pattern does not match). -/
inductive PhysicalKey
  | Code (code : Nat)
  | Unidentified (raw : Nat)
deriving DecidableEq, Repr

/-- Key press state. -/
inductive KeyState
  | Pressed
  | Released
deriving DecidableEq, Repr

/-- Window events handled by AppState::window_event (application.rs lines
37-82); OtherWindow stands for every arm caught by the final wildcard. -/
inductive WindowEvent
  | CloseRequested
  | RedrawRequested
  | KeyboardInput (physical_key : PhysicalKey) (state : KeyState)
  | OtherWindow (tag : Nat)
deriving DecidableEq, Repr

/-- Device events handled by AppState::device_event (lines 84-99); the f64
mouse delta is modelled exactly as a pair of rationals, since it is only
forwarded verbatim, never computed with. -/
inductive DeviceEvent
  | MouseMotion (delta : ℚ × ℚ)
  | OtherDevice (tag : Nat)
deriving DecidableEq, Repr

/-- Observable calls the controller makes on its collaborators, in program
order. -/
inductive Action
  | createWindow
  | updateRenderer
  | renderFrame
  | resize (w h : Nat)
  | requestRedraw
  | handleKeyHeld (code : Nat) (state : KeyState)
  | handleMouse (delta : ℚ × ℚ)
  | printMessage (msg : String)
  | logError (msg : String)
  | exitEventLoop
  | exitProcess (code : Nat)
deriving DecidableEq, Repr

/-- Modelled from the spec: the Renderer and Camera collaborators
(crate::renderer and the camera, repository code not under src/) as one
event observes them: the result render() returns, the window's current
physical size from get_window().inner_size(), and whether the camera's
handle_key_held reports that a redraw is warranted. -/
structure Renderer where
  renderResult : Except SurfaceError Unit
  windowSize : Nat × Nat
  keyRedraw : Nat → KeyState → Bool

/-- Embedding of AppState::window_event (application.rs lines 37-82): the
let-else renderer guard, then the match on the event; returns the renderer
state (never reassigned by this handler) and the ordered collaborator
calls. -/
def window_event (renderer : Option Renderer) (event : WindowEvent) :
    Option Renderer × List Action :=
  match renderer with
  | none => (none, [])
  | some r =>
    match event with
    | .CloseRequested =>
      (some r, [.printMessage "The close button was pressed; stopping",
        .exitEventLoop])
    | .RedrawRequested =>
      (some r, [.updateRenderer, .renderFrame] ++
        match r.renderResult with
        | .ok _ => []
        | .error .Lost => [.resize r.windowSize.1 r.windowSize.2]
        | .error .Outdated => [.resize r.windowSize.1 r.windowSize.2]
        | .error (.Other m) => [.logError ("Unable to render " ++ m)])
    | .KeyboardInput (.Code code) state =>
      (some r, .handleKeyHeld code state ::
        (if r.keyRedraw code state then [.requestRedraw] else []))
    | .KeyboardInput (.Unidentified _) _ => (some r, [])
    | .OtherWindow _ => (some r, [])

/-- Embedding of AppState::device_event (application.rs lines 84-99): the
let-else renderer guard, then the match forwarding mouse motion to the
camera. -/
def device_event (renderer : Option Renderer) (event : DeviceEvent) :
    Option Renderer × List Action :=
  match renderer with
  | none => (none, [])
  | some r =>
    match event with
    | .MouseMotion delta => (some r, [.handleMouse delta])
    | .OtherDevice _ => (some r, [])

/-- Embedding of AppState::resumed (application.rs lines 20-35): create the
window, synchronously await Renderer::new (pollster::block_on), then either
hold the renderer and request a redraw, or log the error and exit the
process with status 1 (nothing after the exit runs). -/
def resumed (initResult : Except String Renderer) :
    Option Renderer × List Action :=
  match initResult with
  | .ok r => (some r, [.createWindow, .requestRedraw])
  | .error e => (none, [.createWindow, .logError e, .exitProcess 1])

/-- Recognizes a resize call among the controller's actions. -/
def isResize : Action → Bool
  | .resize _ _ => true
  | _ => false

/-- Recognizes a redraw request among the controller's actions. -/
def isRequestRedraw : Action → Bool
  | .requestRedraw => true
  | _ => false

/-- A renderer whose render() reports a lost surface, with an 800 x 600
window and a camera that never asks for a redraw. -/
def rLost : Renderer := ⟨.error .Lost, (800, 600), fun _ _ => false⟩

/-- A renderer whose render() succeeds, with an 800 x 600 window and a
camera that always asks for a redraw. -/
def rKey : Renderer := ⟨.ok (), (800, 600), fun _ _ => true⟩

end Mood

namespace Mood

/-- Writing each completed task's result into its slot, starting from any
store: afterwards slot i holds the task's value exactly when i completed. -/
theorem foldl_update_apply (g : Nat → α) (order : List Nat)
    (acc : Nat → Option α) (i : Nat) :
    (order.foldl (fun a j => Function.update a j (some (g j))) acc) i
      = if i ∈ order then some (g i) else acc i := by
  induction order generalizing acc with
  | nil => simp
  | cons j rest ih =>
    simp only [List.foldl_cons, ih]
    by_cases hmem : i ∈ rest
    · simp [hmem]
    · by_cases hij : i = j
      · subst hij
        simp [hmem]
      · simp [hmem, hij, Function.update_noteq hij]

/-- After a completion order, slot i is filled with the decode of index i
exactly when i appears in the order. -/
theorem scheduleStore_apply (g : Nat → α) (order : List Nat) (i : Nat) :
    scheduleStore g order i = if i ∈ order then some (g i) else none :=
  foldl_update_apply g order (fun _ => none) i

/-- Collecting from a store that is filled on every requested index yields
the values in index order. -/
theorem collectStore_all_some (store : Nat → Option α) (g : Nat → α)
    (l : List Nat) (h : ∀ i ∈ l, store i = some (g i)) :
    collectStore store l = some (l.map g) := by
  induction l with
  | nil => simp [collectStore]
  | cons i t ih =>
    have hi := h i (by simp)
    have ht := ih fun j hj => h j (by simp [hj])
    simp [collectStore, hi, ht]

/-- A successful collect returns one value per requested index. -/
theorem collectStore_length (store : Nat → Option α) :
    ∀ (l : List Nat) (r : List α), collectStore store l = some r →
      r.length = l.length := by
  intro l
  induction l with
  | nil =>
    intro r h
    simp [collectStore] at h
    simp [← h]
  | cons i t ih =>
    intro r h
    unfold collectStore at h
    cases hs : store i with
    | none => rw [hs] at h; simp at h
    | some a =>
      rw [hs] at h
      cases hc : collectStore store t with
      | none => rw [hc] at h; simp at h
      | some rest =>
        rw [hc] at h
        simp at h
        simp [← h, ih rest hc]

/-- Reading each position of a list through getD over its index range is the
list itself (mapped). -/
theorem map_getD_range (f : α → β) (d : α) :
    ∀ l : List α,
      (List.range l.length).map (fun i => f (l.getD i d)) = l.map f := by
  intro l
  induction l with
  | nil => simp
  | cons a t ih =>
    simp only [List.length_cons, List.range_succ_eq_map, List.map_cons,
      List.map_map, List.getD_cons_zero, List.map_cons]
    refine congrArg (f a :: ·) ?_
    rw [← ih]
    refine List.map_congr_left ?_
    intro i _
    simp [Function.comp, List.getD_cons_succ]

/-- Joining an already-mapped list of options is mapping the option-valued
function directly. -/
theorem mapOption_id_map (f : α → Option β) :
    ∀ l : List α, mapOption id (l.map f) = mapOption f l := by
  intro l
  induction l with
  | nil => rfl
  | cons a t ih => simp [mapOption, ih]

/-- A successful option-valued map returns one element per input. -/
theorem mapOption_length (f : α → Option β) :
    ∀ (l : List α) (r : List β), mapOption f l = some r →
      r.length = l.length := by
  intro l
  induction l with
  | nil =>
    intro r h
    simp [mapOption] at h
    simp [← h]
  | cons a t ih =>
    intro r h
    unfold mapOption at h
    cases hfa : f a with
    | none => rw [hfa] at h; simp at h
    | some b =>
      rw [hfa] at h
      cases hmt : mapOption f t with
      | none => rw [hmt] at h; simp at h
      | some bs =>
        rw [hmt] at h
        simp at h
        simp [← h, ih bs hmt]

/-- Determinism of the fork-join decode: under any completion order covering
all indices, the collected result is the sequential decode of the files in
input order. -/
theorem par_decode_complete (decode : String → Option RgbaImage)
    (files : List String) (order : List Nat)
    (hord : ∀ i < files.length, i ∈ order) :
    par_decode decode files order = mapOption decode files := by
  unfold par_decode
  rw [collectStore_all_some
      (scheduleStore (fun i => decode (files.getD i "")) order)
      (fun i => decode (files.getD i "")) (List.range files.length)
      (by
        intro i hi
        rw [scheduleStore_apply]
        simp [hord i (List.mem_range.mp hi)])]
  simp only [map_getD_range]
  exact mapOption_id_map decode files

/-- A successful fork-join decode yields one image per input file, under any
completion order. -/
theorem par_decode_length (decode : String → Option RgbaImage)
    (files : List String) (order : List Nat) (rgbas : List RgbaImage)
    (h : par_decode decode files order = some rgbas) :
    rgbas.length = files.length := by
  unfold par_decode at h
  cases hc : collectStore (scheduleStore (fun i => decode (files.getD i ""))
      order) (List.range files.length) with
  | none => rw [hc] at h; simp at h
  | some results =>
    rw [hc] at h
    simp at h
    have h1 := mapOption_length id results rgbas h
    have h2 := collectStore_length _ (List.range files.length) results hc
    simp [h1, h2]

/-- Position k of the upload list written by the enumerate loop starting at
counter i targets layer i + k and carries image k's bytes. -/
theorem upload_writes_get (w h : Nat) :
    ∀ (rgbas : List RgbaImage) (i k : Nat) (r : RgbaImage),
      rgbas[k]? = some r →
      (upload_writes w h i rgbas)[k]?
        = some { z := i + k, data := r.data,
                 bytes_per_row := 4 * w % u32Mod, rows_per_image := h } := by
  intro rgbas
  induction rgbas with
  | nil => intro i k r hr; simp at hr
  | cons a t ih =>
    intro i k r hr
    cases k with
    | zero =>
      simp at hr
      simp [upload_writes, ← hr]
    | succ k' =>
      simp at hr
      have hrec := ih (i + 1) k' r hr
      rw [show i + (k' + 1) = (i + 1) + k' by omega]
      simpa [upload_writes] using hrec

/-- C2: as frozen the claim is false on the row-pitch clause: with six
identically sized decodable images of width 2^30 the upload's
bytes_per_row is the wrapped u32 value 0, not 4 * width. -/
theorem c2_counterexample :
    (∀ f ∈ sixFiles, bigDecode f = some ⟨1073741824, 1, []⟩)
    ∧ (from_files bigDecode sixFiles [0, 1, 2, 3, 4, 5]).toOption.bind
        (fun t => t.writes[0]?.map TexWrite.bytes_per_row) = some 0
    ∧ (4 * 1073741824 : Nat) ≠ 0 := by
  refine ⟨by decide, by decide, by norm_num⟩

/-- C2 (amended): with 6 files whose images all decode with identical
dimensions, from_files succeeds with a 6-layer texture, uploads the decoded
pixel data of file k to depth layer k with row pitch (4 * width) mod 2^32
(equal to 4 * width whenever width < 2^30), and the result is the same for
every completion order of the concurrent decodes. -/
theorem c2_layer_upload_and_determinism
    (decode : String → Option RgbaImage) (files : List String)
    (order : List Nat) (rgbas : List RgbaImage) (r0 : RgbaImage)
    (hlen : files.length = 6)
    (hord : ∀ i < files.length, i ∈ order)
    (hdec : mapOption decode files = some rgbas)
    (h0 : rgbas[0]? = some r0)
    (hdim : ∀ r ∈ rgbas, r.width = r0.width ∧ r.height = r0.height) :
    ∃ t : EnvCubeTexture,
      from_files decode files order = .ok t
      ∧ t.texture.depth_or_array_layers = 6
      ∧ t.texture.width = r0.width ∧ t.texture.height = r0.height
      ∧ (∀ k r, rgbas[k]? = some r →
          t.writes[k]?
            = some (⟨k, r.data, 4 * r0.width % u32Mod, r0.height⟩ : TexWrite))
      ∧ (∀ order2, (∀ i < files.length, i ∈ order2) →
          from_files decode files order2 = from_files decode files order) := by
  cases rgbas with
  | nil => simp at h0
  | cons a rest =>
    have ha : a = r0 := by simpa using h0
    subst ha
    have hall :
        (rest.all fun r => r.width == a.width && r.height == a.height) = true := by
      rw [List.all_eq_true]
      intro r hr
      have hd := hdim r (by simp [hr])
      simp [hd.1, hd.2]
    have heq : from_files decode files order =
        .ok ⟨⟨a.width, a.height, 6, 1, 1, .D2, .Rgba8Unorm,
              [.textureBinding, .copyDst]⟩,
             upload_writes a.width a.height 0 (a :: rest),
             ⟨.Cube, 0, some 6, none, none⟩,
             ⟨.ClampToEdge, .ClampToEdge, .ClampToEdge, none,
              .Linear, .Nearest, .Nearest⟩⟩ := by
      unfold from_files
      rw [par_decode_complete decode files order hord, hdec]
      simp [hlen, hall]
    refine ⟨_, heq, rfl, rfl, rfl, ?_, ?_⟩
    · intro k r hk
      have hw := upload_writes_get a.width a.height (a :: rest) 0 k r hk
      simpa using hw
    · intro order2 h2
      unfold from_files
      rw [par_decode_complete decode files order2 h2,
        par_decode_complete decode files order hord]

/-- C2 amended witness: six 2 x 1 faces, completion order reversed; layer 2
receives the data of file 2, and the reversed order gives the same result as
the in-order schedule. -/
theorem c2_layer_upload_and_determinism_witness :
    ∃ t : EnvCubeTexture,
      from_files smallDecode sixFiles [5, 4, 3, 2, 1, 0] = .ok t
      ∧ t.writes[2]? = some (⟨2, [3], 4 * 2 % u32Mod, 1⟩ : TexWrite)
      ∧ from_files smallDecode sixFiles [0, 1, 2, 3, 4, 5]
          = from_files smallDecode sixFiles [5, 4, 3, 2, 1, 0] := by
  obtain ⟨t, heq, _, _, _, hw, hdet⟩ :=
    c2_layer_upload_and_determinism smallDecode sixFiles [5, 4, 3, 2, 1, 0]
      [⟨2, 1, [1]⟩, ⟨2, 1, [2]⟩, ⟨2, 1, [3]⟩, ⟨2, 1, [4]⟩, ⟨2, 1, [5]⟩,
        ⟨2, 1, [6]⟩] ⟨2, 1, [1]⟩
      (by decide) (by decide) (by decide) (by decide) (by decide)
  exact ⟨t, heq, hw 2 ⟨2, 1, [3]⟩ (by decide), hdet [0, 1, 2, 3, 4, 5] (by decide)⟩

/-- C3: from_files fails with the count error for any number of paths other
than 6; with 6 paths whose decoded images do not all match the first image's
dimensions it fails with the dimension-mismatch error; an error result is
never also a constructed texture. -/
theorem c3_fatal_count_and_dim_errors (decode : String → Option RgbaImage)
    (files : List String) (order : List Nat) :
    (files.length ≠ 6 → from_files decode files order = .error .wrongCount)
    ∧ (∀ r0 rest, files.length = 6 →
        par_decode decode files order = some (r0 :: rest) →
        (rest.all fun r => r.width == r0.width && r.height == r0.height)
          = false →
        from_files decode files order = .error .dimMismatch)
    ∧ (∀ e t, from_files decode files order = .error e →
        ¬ from_files decode files order = .ok t) := by
  refine ⟨?_, ?_, ?_⟩
  · intro h
    unfold from_files
    simp [h]
  · intro r0 rest hlen hdec hall
    unfold from_files
    rw [hdec]
    simp [hlen, hall]
  · intro e t he hok
    rw [he] at hok
    exact Except.noConfusion hok

/-- C3 witness: five paths fail with the count error; six paths decoding to
one 64 x 64 and five 32 x 32 images fail with the dimension mismatch. -/
theorem c3_fatal_count_and_dim_errors_witness :
    from_files mixDecode fiveFiles [0, 1, 2, 3, 4] = .error .wrongCount
    ∧ from_files mixDecode sixFiles [0, 1, 2, 3, 4, 5] = .error .dimMismatch :=
  ⟨(c3_fatal_count_and_dim_errors mixDecode fiveFiles [0, 1, 2, 3, 4]).1
      (by decide),
   (c3_fatal_count_and_dim_errors mixDecode sixFiles [0, 1, 2, 3, 4, 5]).2.1
      ⟨64, 64, []⟩
      [⟨32, 32, []⟩, ⟨32, 32, []⟩, ⟨32, 32, []⟩, ⟨32, 32, []⟩, ⟨32, 32, []⟩]
      (by decide) (by decide) (by decide)⟩

/-- C10: with 6 input paths, a successful join of the decodes always yields
exactly 6 images, so the rgbas accesses at index 0 and the tail slice are in
bounds and the index-panic branch is unreachable. -/
theorem c10_first_index_and_tail_in_bounds (decode : String → Option RgbaImage)
    (files : List String) (order : List Nat) (rgbas : List RgbaImage)
    (hlen : files.length = 6)
    (hdec : par_decode decode files order = some rgbas) :
    rgbas.length = 6 ∧ rgbas[0]?.isSome ∧ (rgbas.drop 1).length = 5
    ∧ from_files decode files order ≠ .error .indexPanic := by
  have hr6 : rgbas.length = 6 := by
    rw [par_decode_length decode files order rgbas hdec, hlen]
  refine ⟨hr6, ?_, ?_, ?_⟩
  · cases rgbas with
    | nil => simp at hr6
    | cons a t => simp
  · simp [hr6]
  · cases rgbas with
    | nil => simp at hr6
    | cons a t =>
      unfold from_files
      rw [hdec]
      by_cases hall :
          (t.all fun r => r.width == a.width && r.height == a.height) = true
      · simp [hlen, hall]
      · simp [hlen, hall]

/-- C10 witness: the mixed-dimension decode of the six concrete files joins
to six images, so the index accesses are in bounds even though the dimension
check will fail later. -/
theorem c10_first_index_and_tail_in_bounds_witness :
    ([⟨64, 64, []⟩, ⟨32, 32, []⟩, ⟨32, 32, []⟩, ⟨32, 32, []⟩, ⟨32, 32, []⟩,
        ⟨32, 32, []⟩] : List RgbaImage).length = 6
    ∧ (([⟨64, 64, []⟩, ⟨32, 32, []⟩, ⟨32, 32, []⟩, ⟨32, 32, []⟩, ⟨32, 32, []⟩,
        ⟨32, 32, []⟩] : List RgbaImage))[0]?.isSome
    ∧ (List.drop 1 ([⟨64, 64, []⟩, ⟨32, 32, []⟩, ⟨32, 32, []⟩, ⟨32, 32, []⟩,
        ⟨32, 32, []⟩, ⟨32, 32, []⟩] : List RgbaImage)).length = 5
    ∧ from_files mixDecode sixFiles [0, 1, 2, 3, 4, 5] ≠ .error .indexPanic :=
  c10_first_index_and_tail_in_bounds mixDecode sixFiles [0, 1, 2, 3, 4, 5]
    [⟨64, 64, []⟩, ⟨32, 32, []⟩, ⟨32, 32, []⟩, ⟨32, 32, []⟩, ⟨32, 32, []⟩,
      ⟨32, 32, []⟩] (by decide) (by decide)

/-- C1: as frozen the claim is false: with u32 wrapping arithmetic the
in-range pairs (715827882, 4) and (0, 0) under numLights = 715827883 ≥ 1
both derive base layer 0, and the derived layer is not 6*l+f there. -/
theorem c1_counterexample :
    (1 ≤ 715827883 ∧ 715827882 < 715827883 ∧ 4 < 6 ∧ 0 < 715827883)
    ∧ (create_view_from_face 715827882 4).base_array_layer
        = (create_view_from_face 0 0).base_array_layer
    ∧ ¬ (715827882 = 0 ∧ 4 = 0)
    ∧ (create_view_from_face 715827882 4).base_array_layer ≠ 6 * 715827882 + 4 := by
  refine ⟨by norm_num, ?_, by norm_num, ?_⟩ <;>
    simp [create_view_from_face, u32Mod]

/-- C1 (amended): whenever 6 * numLights ≤ 2^32 (so the u32 layer arithmetic
cannot wrap), for all in-range lightIndex and faceIndex the base array layer
derived by create_view_from_face is exactly 6*lightIndex + faceIndex, and the
mapping is injective on in-range pairs. -/
theorem c1_layer_index_exact_and_injective
    (num_lights l f l' f' : Nat)
    (hn : 6 * num_lights ≤ u32Mod)
    (hl : l < num_lights) (hf : f < 6)
    (hl' : l' < num_lights) (hf' : f' < 6) :
    (create_view_from_face l f).base_array_layer = 6 * l + f
    ∧ ((create_view_from_face l f).base_array_layer
        = (create_view_from_face l' f').base_array_layer → l = l' ∧ f = f') := by
  have hb : ∀ a b : Nat, a < num_lights → b < 6 → 6 * a + b < u32Mod := by
    intro a b ha hbnd
    have : 6 * a + b < 6 * num_lights := by omega
    omega
  have h1 : (create_view_from_face l f).base_array_layer = 6 * l + f := by
    simp only [create_view_from_face]
    exact Nat.mod_eq_of_lt (hb l f hl hf)
  have h2 : (create_view_from_face l' f').base_array_layer = 6 * l' + f' := by
    simp only [create_view_from_face]
    exact Nat.mod_eq_of_lt (hb l' f' hl' hf')
  refine ⟨h1, ?_⟩
  intro heq
  rw [h1, h2] at heq
  omega

/-- C1 amended witness: numLights = 3, pairs (2,5) and (1,0). -/
theorem c1_layer_index_exact_and_injective_witness :
    (create_view_from_face 2 5).base_array_layer = 6 * 2 + 5
    ∧ ((create_view_from_face 2 5).base_array_layer
        = (create_view_from_face 1 0).base_array_layer → 2 = 1 ∧ 5 = 0) :=
  c1_layer_index_exact_and_injective 3 2 5 1 0 (by norm_num [u32Mod])
    (by norm_num) (by norm_num) (by norm_num) (by norm_num)

/-- C4: new_shadow_map against the modelled device fails with a construction
error exactly when resolution = 0, while numLights = 0 with a positive
resolution is legal and yields a zero-layer texture. -/
theorem c4_zero_resolution_fails_zero_lights_legal (resolution num_lights : Nat) :
    (resolution = 0 →
      new_shadow_map_on_device resolution num_lights = .error .zeroSize)
    ∧ (0 < resolution →
      new_shadow_map_on_device resolution num_lights
        = .ok (new_shadow_map resolution num_lights))
    ∧ (0 < resolution →
      new_shadow_map_on_device resolution 0 = .ok (new_shadow_map resolution 0)
      ∧ (new_shadow_map resolution 0).texture.depth_or_array_layers = 0) := by
  refine ⟨?_, ?_, ?_⟩
  · intro h
    subst h
    simp [new_shadow_map_on_device, create_texture, new_shadow_map]
  · intro h
    simp [new_shadow_map_on_device, create_texture, new_shadow_map,
      Nat.pos_iff_ne_zero.mp h]
  · intro h
    refine ⟨?_, ?_⟩
    · simp [new_shadow_map_on_device, create_texture, new_shadow_map,
        Nat.pos_iff_ne_zero.mp h]
    · simp [new_shadow_map, u32Mod]

/-- C4 witness: resolution 0 fails; resolution 512 with 0 lights succeeds
with a zero-layer texture. -/
theorem c4_zero_resolution_fails_zero_lights_legal_witness :
    new_shadow_map_on_device 0 5 = .error .zeroSize
    ∧ (new_shadow_map_on_device 512 0 = .ok (new_shadow_map 512 0)
      ∧ (new_shadow_map 512 0).texture.depth_or_array_layers = 0) :=
  ⟨(c4_zero_resolution_fails_zero_lights_legal 0 5).1 rfl,
   (c4_zero_resolution_fails_zero_lights_legal 512 0).2.2 (by norm_num)⟩

/-- C5: as frozen the claim is false: at numLights = 715827883 the u32
product 6 * numLights wraps, so the texture gets 2 array layers, not
6 * 715827883. -/
theorem c5_counterexample :
    (new_shadow_map 512 715827883).texture.depth_or_array_layers = 2
    ∧ (new_shadow_map 512 715827883).texture.depth_or_array_layers
        ≠ 6 * 715827883 := by
  constructor <;> simp [new_shadow_map, u32Mod]

/-- C5 (amended): whenever 6 * numLights < 2^32 (no u32 wrap), new_shadow_map
builds a Depth32Float 2D texture of size resolution × resolution with exactly
6 * numLights array layers, usage sampled + render-attachment, and a
cube-array sampled view starting at layer 0 spanning all 6 * numLights
layers. -/
theorem c5_shadow_atlas_shape (resolution num_lights : Nat)
    (hn : 6 * num_lights < u32Mod) :
    (new_shadow_map resolution num_lights).texture.width = resolution
    ∧ (new_shadow_map resolution num_lights).texture.height = resolution
    ∧ (new_shadow_map resolution num_lights).texture.depth_or_array_layers
        = 6 * num_lights
    ∧ (new_shadow_map resolution num_lights).texture.format = .Depth32Float
    ∧ (new_shadow_map resolution num_lights).texture.dimension = .D2
    ∧ (new_shadow_map resolution num_lights).texture.usage
        = [.textureBinding, .renderAttachment]
    ∧ (new_shadow_map resolution num_lights).view.dimension = .CubeArray
    ∧ (new_shadow_map resolution num_lights).view.base_array_layer = 0
    ∧ (new_shadow_map resolution num_lights).view.array_layer_count
        = some (6 * num_lights) := by
  simp [new_shadow_map, Nat.mod_eq_of_lt hn]

/-- C5 amended witness: resolution 512 with 4 lights yields exactly 24
layers. -/
theorem c5_shadow_atlas_shape_witness :
    (new_shadow_map 512 4).texture.depth_or_array_layers = 6 * 4
    ∧ (new_shadow_map 512 4).view.array_layer_count = some (6 * 4) :=
  ⟨(c5_shadow_atlas_shape 512 4 (by norm_num [u32Mod])).2.2.1,
   (c5_shadow_atlas_shape 512 4 (by norm_num [u32Mod])).2.2.2.2.2.2.2.2⟩

/-- C6: on RedrawRequested with a live renderer, the controller keeps its
state, calls update then render first; on a Lost or Outdated surface error
it issues exactly one resize with the window's current size; on any other
render error it only logs, issuing zero resizes; on success it takes no
further action. -/
theorem c6_redraw_surface_error_policy (r : Renderer) :
    ((window_event (some r) .RedrawRequested).1 = some r)
    ∧ ((window_event (some r) .RedrawRequested).2.take 2
        = [.updateRenderer, .renderFrame])
    ∧ (r.renderResult = .ok () →
        (window_event (some r) .RedrawRequested).2
          = [.updateRenderer, .renderFrame])
    ∧ (r.renderResult = .error .Lost ∨ r.renderResult = .error .Outdated →
        (window_event (some r) .RedrawRequested).2
          = [.updateRenderer, .renderFrame,
             .resize r.windowSize.1 r.windowSize.2]
        ∧ (window_event (some r) .RedrawRequested).2.countP isResize = 1)
    ∧ (∀ m, r.renderResult = .error (.Other m) →
        (window_event (some r) .RedrawRequested).2
          = [.updateRenderer, .renderFrame,
             .logError ("Unable to render " ++ m)]
        ∧ (window_event (some r) .RedrawRequested).2.countP isResize = 0) := by
  refine ⟨rfl, ?_, ?_, ?_, ?_⟩
  · rcases hres : r.renderResult with u | e
    · simp [window_event, hres]
    · rcases e with _ | _ | m
      all_goals simp [window_event, hres]
  · intro h
    simp [window_event, h]
  · intro h
    rcases h with h | h <;>
      simp [window_event, h, isResize, List.countP_cons]
  · intro m h
    simp [window_event, h, isResize, List.countP_cons]

/-- C6 witness: a lost surface on an 800 x 600 window produces exactly the
update, render, resize 800 600 sequence. -/
theorem c6_redraw_surface_error_policy_witness :
    (window_event (some rLost) .RedrawRequested).2
      = [.updateRenderer, .renderFrame, .resize 800 600] :=
  ((c6_redraw_surface_error_policy rLost).2.2.2.1 (Or.inl rfl)).1

/-- C7: with a live renderer, a keyboard event with a known key code is
forwarded to the camera and triggers exactly one redraw request exactly
when handle_key_held returns true, and a mouse-motion device event forwards
its raw delta verbatim to the camera and requests no redraw. -/
theorem c7_input_forwarding (r : Renderer) (code : Nat) (state : KeyState)
    (delta : ℚ × ℚ) :
    (window_event (some r) (.KeyboardInput (.Code code) state)
      = (some r, .handleKeyHeld code state ::
          if r.keyRedraw code state then [.requestRedraw] else []))
    ∧ ((window_event (some r) (.KeyboardInput (.Code code) state)).2.countP
        isRequestRedraw = if r.keyRedraw code state then 1 else 0)
    ∧ (device_event (some r) (.MouseMotion delta)
        = (some r, [.handleMouse delta]))
    ∧ ((device_event (some r) (.MouseMotion delta)).2.countP
        isRequestRedraw = 0) := by
  refine ⟨rfl, ?_, rfl, rfl⟩
  cases hk : r.keyRedraw code state <;>
    simp [window_event, hk, isRequestRedraw, List.countP_cons]

/-- C7 witness: a camera that reports a needed redraw yields exactly one
redraw request for a held key, and the delta (10, -3.5) is forwarded
verbatim with no redraw request. -/
theorem c7_input_forwarding_witness :
    ((window_event (some rKey) (.KeyboardInput (.Code 17) .Pressed)).2.countP
        isRequestRedraw = 1)
    ∧ device_event (some rKey) (.MouseMotion (10, -7 / 2))
        = (some rKey, [.handleMouse (10, -7 / 2)])
    ∧ ((device_event (some rKey) (.MouseMotion (10, -7 / 2))).2.countP
        isRequestRedraw = 0) :=
  ⟨(c7_input_forwarding rKey 17 .Pressed (10, -7 / 2)).2.1,
   (c7_input_forwarding rKey 17 .Pressed (10, -7 / 2)).2.2.1,
   (c7_input_forwarding rKey 17 .Pressed (10, -7 / 2)).2.2.2⟩

/-- C8: on resume, the controller creates the window and synchronously
awaits Renderer initialization; on success it holds the renderer and
requests a redraw, and on failure it logs the error and exits the process
with the non-zero status 1 as its final act, never returning with a failed
renderer held. -/
theorem c8_resume_init_policy (initResult : Except String Renderer) :
    (∀ r, initResult = .ok r →
      resumed initResult = (some r, [.createWindow, .requestRedraw]))
    ∧ (∀ e, initResult = .error e →
      resumed initResult
        = (none, [.createWindow, .logError e, .exitProcess 1])
      ∧ (resumed initResult).2.getLast? = some (.exitProcess 1)
      ∧ (1 : Nat) ≠ 0) := by
  refine ⟨?_, ?_⟩
  · intro r h
    subst h
    rfl
  · intro e h
    subst h
    exact ⟨rfl, rfl, one_ne_zero⟩

/-- C8 witness: a successful initialization stores the renderer and requests
a redraw; a failed one logs and exits with status 1. -/
theorem c8_resume_init_policy_witness :
    resumed (.ok rKey) = (some rKey, [.createWindow, .requestRedraw])
    ∧ resumed (.error "no adapter")
        = (none, [.createWindow, .logError "no adapter", .exitProcess 1]) :=
  ⟨(c8_resume_init_policy (.ok rKey)).1 rKey rfl,
   ((c8_resume_init_policy (.error "no adapter")).2 "no adapter" rfl).1⟩

/-- C9: while the renderer is absent, every window event and every device
event returns immediately with the state unchanged and no collaborator
calls; in particular a close request does not exit the event loop. -/
theorem c9_no_renderer_ignores_events :
    (∀ event : WindowEvent, window_event none event = (none, []))
    ∧ (∀ event : DeviceEvent, device_event none event = (none, []))
    ∧ Action.exitEventLoop ∉ (window_event none .CloseRequested).2 := by
  refine ⟨fun _ => rfl, fun _ => rfl, by simp [window_event]⟩

end Mood
